import Mathlib

/-!
Shallow embedding of the tg-coach-bot notification-relay consumer
(main file: the resilient Firestore listener `startFirestoreListener`,
plus the startup credential checks of `bot.js`).

The embedding models:
* queue-entry documents of the `notification_queue` collection and the
  field writes performed on them (`updateDoc` payloads),
* the Telegram delivery sink and the Firestore store as oracles
  (`Sink`, `Store`) returning success or a failure message,
* the per-entry delivery procedure run for each `added` doc change,
* the snapshot / error callbacks of the listener, its exponential-backoff
  reconnection state machine and the subscription-handle lifecycle,
* the startup environment checks.
-/

namespace TgCoachBot

/-- A timestamp value written to a document: the Firestore
`serverTimestamp()` sentinel (server-assigned) or a client-clock value
(`new Date()`). The main file uses the sentinel. -/
inductive TimeVal where
  | serverTimestamp : TimeVal
  | clientTime : Nat → TimeVal
deriving DecidableEq, Repr

/-- A field value occurring in this program's documents and writes. -/
inductive FieldVal where
  | str : String → FieldVal
  | time : TimeVal → FieldVal
deriving DecidableEq, Repr

/-- The payload of an `updateDoc` call: a list of field-name/value pairs. -/
abbrev Fields := List (String × FieldVal)

/-- A queue-entry document (§3 Queue Entry): recipient identifier
(`telegram_id`), message body (`message`), `status`, optional `sent_at`
and `error_message`. -/
structure NotifDoc where
  telegram_id : String
  message : String
  status : String
  sent_at : Option TimeVal := none
  error_message : Option String := none
deriving DecidableEq, Repr

/-- Apply a single field-name/value pair to a document (Firestore
`updateDoc` merge semantics on the fields this program uses). -/
def setField (d : NotifDoc) : String × FieldVal → NotifDoc
  | ("status", FieldVal.str s) => { d with status := s }
  | ("sent_at", FieldVal.time t) => { d with sent_at := some t }
  | ("error_message", FieldVal.str m) => { d with error_message := some m }
  | ("telegram_id", FieldVal.str s) => { d with telegram_id := s }
  | ("message", FieldVal.str s) => { d with message := s }
  | _ => d

/-- Apply an `updateDoc` payload to a document, field by field. -/
def applyFields (d : NotifDoc) (fs : Fields) : NotifDoc :=
  fs.foldl setField d

/-- The payload of the success-path `updateDoc` (lines 97-100):
`{ status: "sent", sent_at: serverTimestamp() }`. -/
def sentWriteFields : Fields :=
  [("status", FieldVal.str "sent"), ("sent_at", FieldVal.time TimeVal.serverTimestamp)]

/-- The payload of the error-path `updateDoc` (lines 106-109):
`{ status: "error", error_message: msg }`. -/
def errorWriteFields (msg : String) : Fields :=
  [("status", FieldVal.str "error"), ("error_message", FieldVal.str msg)]

/-- `error?.message || String(error)`: a falsy (empty) message string
falls back to the stringified error, which for an `Error` with empty
message prints as `"Error"`. -/
def coerceErrMsg (m : String) : String :=
  if m = "" then "Error" else m

/-- The Delivery Sink oracle: `bot.sendMessage(recipientId, body, ...)`
either succeeds or throws an error carrying a message string. -/
abbrev Sink := String → String → Except String Unit

/-- The Queue Store write oracle: `updateDoc(doc(db, "notification_queue",
docId), fields)` either succeeds or throws an error carrying a message
string; the outcome may depend on the doc id and the payload. -/
abbrev Store := String → Fields → Except String Unit

/-- The kind tag of a Firestore document change. -/
inductive ChangeType where
  | added : ChangeType
  | modified : ChangeType
  | removed : ChangeType
deriving DecidableEq, Repr

/-- One element of `snapshot.docChanges()`. -/
structure DocChange where
  type : ChangeType
  docId : String
  data : NotifDoc
deriving DecidableEq, Repr

/-- What one per-entry delivery run produced: the sink invocations
(doc id, recipient, body), the `updateDoc` calls attempted (doc id,
payload), and the document after applying the writes that succeeded. -/
structure EntryOutcome where
  sendCalls : List (String × String × String)
  writes : List (String × Fields)
  finalDoc : NotifDoc
deriving DecidableEq, Repr

/-- The per-entry delivery procedure of the snapshot callback (lines
91-110). The `try` block awaits `bot.sendMessage` and then the
`status: "sent"` `updateDoc`; a throw from EITHER lands in the `catch`,
which logs and then awaits the `status: "error"` `updateDoc` (itself
unguarded: its failure propagates with no further writes). -/
def handleAdded (sink : Sink) (store : Store) (docId : String) (notif : NotifDoc) :
    EntryOutcome :=
  match sink notif.telegram_id notif.message with
  | Except.ok _ =>
    match store docId sentWriteFields with
    | Except.ok _ =>
      { sendCalls := [(docId, notif.telegram_id, notif.message)]
        writes := [(docId, sentWriteFields)]
        finalDoc := applyFields notif sentWriteFields }
    | Except.error e =>
      let w := errorWriteFields (coerceErrMsg e)
      { sendCalls := [(docId, notif.telegram_id, notif.message)]
        writes := [(docId, sentWriteFields), (docId, w)]
        finalDoc := match store docId w with
          | Except.ok _ => applyFields notif w
          | Except.error _ => notif }
  | Except.error e =>
    let w := errorWriteFields (coerceErrMsg e)
    { sendCalls := [(docId, notif.telegram_id, notif.message)]
      writes := [(docId, w)]
      finalDoc := match store docId w with
        | Except.ok _ => applyFields notif w
        | Except.error _ => notif }

/-- The body of the `docChanges().forEach` callback (lines 84-111): only
`change.type === "added"` triggers the delivery procedure; `modified`
and `removed` changes do nothing. -/
def processChange (sink : Sink) (store : Store) (c : DocChange) : EntryOutcome :=
  match c.type with
  | ChangeType.added => handleAdded sink store c.docId c.data
  | _ => { sendCalls := [], writes := [], finalDoc := c.data }

/-- Processing one snapshot batch: `forEach` launches an independent
async callback per change; no entry's outcome feeds into a sibling's. -/
def processBatch (sink : Sink) (store : Store) (cs : List DocChange) :
    List EntryOutcome :=
  cs.map (processChange sink store)

/-- A Firestore query: `query(collection(db, coll), where(field, op, value))`. -/
structure Query where
  coll : String
  whereField : String
  whereOp : String
  whereValue : String
deriving DecidableEq, Repr

/-- Line 53: `query(collection(db, "notification_queue"),
where("status", "==", "pending"))`. -/
def notifQuery : Query :=
  { coll := "notification_queue", whereField := "status"
    whereOp := "==", whereValue := "pending" }

/-- Line 60: `const MAX_BACKOFF = 60000`. -/
def MAX_BACKOFF : Nat := 60000

/-- A subscription handle returned by `onSnapshot`, recording the query
it was opened on. -/
structure Handle where
  id : Nat
  q : Query
deriving DecidableEq, Repr

/-- The `code` field of a Firestore listener error: a number, a string,
or absent (`error?.code ?? ''` turns absence into the empty string). -/
inductive ErrCode where
  | num : Int → ErrCode
  | str : String → ErrCode
  | noCode : ErrCode
deriving DecidableEq, Repr

/-- An error object delivered to the listener's error callback. -/
structure FeedError where
  message : String
  code : ErrCode
deriving DecidableEq, Repr

/-- JavaScript `s.includes(pat)` for the nonempty literal patterns used
on line 119. -/
def strIncludes (s pat : String) : Bool :=
  (s.splitOn pat).length != 1

/-- The transient test of line 119: the message mentions an idle-stream
disconnect or a target timeout, or the code is gRPC `1` (number or
string). -/
def isTransient (e : FeedError) : Bool :=
  strIncludes e.message "Disconnecting idle stream"
    || strIncludes e.message "Timed out waiting for new targets"
    || e.code == ErrCode.num 1
    || e.code == ErrCode.str "1"

/-- Log severity: `console.warn` vs `console.error`. -/
inductive Severity where
  | warn : Severity
  | logError : Severity
deriving DecidableEq, Repr

/-- Lines 119-123: transient errors log via `console.warn`, all others
via `console.error`. -/
def severityOf (e : FeedError) : Severity :=
  if isTransient e then Severity.warn else Severity.logError

/-- The consumer's mutable session state: the `backoff` interval, the
`unsubscribe` variable (the current handle, if any), a fresh-id counter,
the set of handles still delivering events, and every handle ever opened. -/
structure ConsState where
  backoff : Nat
  current : Option Nat
  nextId : Nat
  active : List Nat
  opened : List Handle
deriving DecidableEq, Repr

/-- `startFirestoreListener` (lines 62-134): first release the existing
handle if any (inside try/catch, so a throw from an already-closed
handle is tolerated and merely logged), then assign a fresh `onSnapshot`
subscription on `notifQuery` to `unsubscribe`. Releasing an
already-closed handle (absent from `active`) is a no-op. -/
def startFirestoreListener (s : ConsState) : ConsState :=
  let cleared := match s.current with
    | some h => s.active.erase h
    | none => s.active
  { backoff := s.backoff
    current := some s.nextId
    nextId := s.nextId + 1
    active := s.nextId :: cleared
    opened := s.opened ++ [{ id := s.nextId, q := notifQuery }] }

/-- The state before line 137 runs: `backoff = 1000`, no listener yet. -/
def preStartState : ConsState :=
  { backoff := 1000, current := none, nextId := 0, active := [], opened := [] }

/-- Line 137: the process starts the listener once. -/
def initState : ConsState := startFirestoreListener preStartState

/-- An event delivered to the consumer by the live view: a snapshot
callback (with its `snapshot.empty` flag and `docChanges()` list) or an
error callback. -/
inductive FeedEvent where
  | snapshot : Bool → List DocChange → FeedEvent
  | feedError : FeedError → FeedEvent
deriving DecidableEq, Repr

/-- Everything observable the consumer emitted so far: reconnect delays
scheduled (in order), sink invocations, `updateDoc` calls, and the
severity of each feed-error log. -/
structure Trace where
  delays : List Nat
  sends : List (String × String × String)
  writes : List (String × Fields)
  severities : List Severity
deriving DecidableEq, Repr

/-- The empty trace. -/
def emptyTrace : Trace :=
  { delays := [], sends := [], writes := [], severities := [] }

/-- One consumer step.
Snapshot callback (lines 75-113): reset `backoff` to 1000 first; if
`snapshot.empty`, return; otherwise process every change of the batch.
Error callback (lines 114-132): log with the classified severity,
schedule a restart after the CURRENT backoff, and in the timer callback
double the backoff (capped at `MAX_BACKOFF`) before calling
`startFirestoreListener`. Sequentially, the timer fires before the next
event, so the step performs the doubling and the restart. -/
def consumerStep (sink : Sink) (store : Store) (s : ConsState) (t : Trace) :
    FeedEvent → ConsState × Trace
  | FeedEvent.snapshot isEmpty changes =>
    let s' := { s with backoff := 1000 }
    if isEmpty then
      (s', t)
    else
      let outs := processBatch sink store changes
      (s', { t with
              sends := t.sends ++ outs.flatMap EntryOutcome.sendCalls
              writes := t.writes ++ outs.flatMap EntryOutcome.writes })
  | FeedEvent.feedError e =>
    let delay := s.backoff
    let s' := startFirestoreListener
      { s with backoff := min (s.backoff * 2) MAX_BACKOFF }
    (s', { t with
            delays := t.delays ++ [delay]
            severities := t.severities ++ [severityOf e] })

/-- Run the consumer from a given state over a list of feed events. -/
def consumerRunFrom (sink : Sink) (store : Store) :
    ConsState → Trace → List FeedEvent → ConsState × Trace
  | s, t, [] => (s, t)
  | s, t, ev :: rest =>
    consumerRunFrom sink store (consumerStep sink store s t ev).1
      (consumerStep sink store s t ev).2 rest

/-- The consumer's lifetime run: start the listener at process start,
then handle each event as it arrives. -/
def consumerRun (sink : Sink) (store : Store) (events : List FeedEvent) :
    ConsState × Trace :=
  consumerRunFrom sink store initState emptyTrace events

/-- How many times a given doc id occurs as an `added` change across all
snapshot events of a lifetime. -/
def countAdded (events : List FeedEvent) (d : String) : Nat :=
  (events.flatMap fun ev =>
    match ev with
    | FeedEvent.snapshot _ changes =>
      changes.filter fun c => c.type == ChangeType.added && c.docId == d
    | FeedEvent.feedError _ => []).length

/-- How many sink invocations a trace records for a given doc id. -/
def countSends (t : Trace) (d : String) : Nat :=
  (t.sends.filter fun sc => sc.1 == d).length

/-- What a startup code path did: the messages it logged and whether it
called `process.exit`. -/
structure StartupResult where
  logs : List String
  exited : Bool
deriving DecidableEq, Repr

/-- The env check of the main file (lines 8-11): each missing credential
logs a FATAL line via `console.error`; neither branch calls
`process.exit`, so the process continues either way. -/
def envCheck (tokenPresent apiKeyPresent : Bool) : StartupResult :=
  { logs :=
      (if tokenPresent then [] else ["FATAL: TELEGRAM_BOT_TOKEN is missing!"])
        ++ (if apiKeyPresent then [] else ["FATAL: VITE_FIREBASE_API_KEY is missing!"])
    exited := false }

/-- The token check of `bot.js`, first variant (lines 49-52): a missing
token logs an error and calls `process.exit(1)`. -/
def botJsTokenCheck (tokenPresent : Bool) : StartupResult :=
  if tokenPresent then { logs := [], exited := false }
  else { logs := ["ERROR: TELEGRAM_BOT_TOKEN not set"], exited := true }

/-- The service-account setup of `bot.js`, second variant (lines
136-157): with neither `GOOGLE_SERVICE_ACCOUNT_JSON` nor
`GOOGLE_APPLICATION_CREDENTIALS` set, line 155 logs `FATAL: No Google
Credentials provided.` and the process CONTINUES (the `process.exit(1)`
sits only in the file-read-failure branch, lines 150-153). -/
def serviceAccountSetup (jsonEnvSet : Bool) (credFileSet : Bool)
    (fileReadOk : Bool) : StartupResult :=
  if jsonEnvSet then { logs := ["Service account loaded from JSON string env var."], exited := false }
  else if credFileSet then
    if fileReadOk then { logs := ["Service account loaded from file."], exited := false }
    else { logs := ["Failed to load service account key"], exited := true }
  else { logs := ["FATAL: No Google Credentials provided."], exited := false }

/-! Concrete fixtures used to evaluate the model on closed inputs. -/

/-- A sink for which every send succeeds. -/
def sinkOkAll : Sink := fun _ _ => Except.ok ()

/-- A sink for which every send fails with the message `blocked by user`. -/
def sinkBlocked : Sink := fun _ _ => Except.error "blocked by user"

/-- A store for which every write succeeds. -/
def storeOkAll : Store := fun _ _ => Except.ok ()

/-- A store for which the `status: "sent"` write fails with message
`unavailable` and every other write succeeds. -/
def storeFailSent : Store := fun _ fs =>
  if fs = sentWriteFields then Except.error "unavailable" else Except.ok ()

/-- An idle-stream disconnect error (transient per line 119). -/
def errIdle : FeedError :=
  { message := "Firestore: Disconnecting idle stream", code := ErrCode.noCode }

/-- A pending queue entry, the spec's end-to-end example. -/
def notif42 : NotifDoc :=
  { telegram_id := "42", message := "Training at 5pm", status := "pending" }

/-- Three pending queue entries for the batch-isolation scenario. -/
def doc1 : NotifDoc := { telegram_id := "r1", message := "m1", status := "pending" }

/-- Second entry of the batch-isolation scenario. -/
def doc2 : NotifDoc := { telegram_id := "r2", message := "m2", status := "pending" }

/-- Third entry of the batch-isolation scenario. -/
def doc3 : NotifDoc := { telegram_id := "r3", message := "m3", status := "pending" }

/-- A sink that fails exactly for recipient `r2` with `blocked by user`. -/
def sinkFailR2 : Sink := fun r _ =>
  if r = "r2" then Except.error "blocked by user" else Except.ok ()

/-- A batch of three `added` changes. -/
def batch3 : List DocChange :=
  [ { type := ChangeType.added, docId := "d1", data := doc1 },
    { type := ChangeType.added, docId := "d2", data := doc2 },
    { type := ChangeType.added, docId := "d3", data := doc3 } ]

/-- A `modified` change: the echo of the consumer's own status write. -/
def changeModified : DocChange :=
  { type := ChangeType.modified, docId := "d1", data := { doc1 with status := "sent" } }

/-- A lifetime with one `added` observation of entry `d1` followed by
the `modified` echo of the consumer's own `sent` write. -/
def eventsOneAdd : List FeedEvent :=
  [ FeedEvent.snapshot false [{ type := ChangeType.added, docId := "d1", data := doc1 }],
    FeedEvent.snapshot false [changeModified] ]

/-- The shape of an `updateDoc` payload this consumer ever issues:
either the success payload or an error payload. -/
def writeShape (fs : Fields) : Prop :=
  fs = sentWriteFields ∨ ∃ m : String, fs = errorWriteFields m

/-- The session-handle invariant: the handles still delivering events
are exactly the one stored in `unsubscribe`, if any. -/
def sessionInv (s : ConsState) : Prop :=
  s.active = s.current.toList

/-! Helper lemmas about the delivery procedure. -/

/-- Applying the success-path payload sets exactly status and sent time. -/
lemma applyFields_sent (d : NotifDoc) :
    applyFields d sentWriteFields =
      { d with status := "sent", sent_at := some TimeVal.serverTimestamp } := rfl

/-- Applying the error-path payload sets exactly status and error detail. -/
lemma applyFields_error (d : NotifDoc) (m : String) :
    applyFields d (errorWriteFields m) =
      { d with status := "error", error_message := some m } := rfl

/-- `coerceErrMsg` is the identity on nonempty messages. -/
lemma coerceErrMsg_ne (m : String) (h : m ≠ "") : coerceErrMsg m = m := by
  simp [coerceErrMsg, h]

/-- The delivery procedure invokes the sink exactly once, whatever the
sink and store return. -/
lemma handleAdded_sendCalls (sink : Sink) (store : Store) (docId : String)
    (notif : NotifDoc) :
    (handleAdded sink store docId notif).sendCalls =
      [(docId, notif.telegram_id, notif.message)] := by
  unfold handleAdded
  cases sink notif.telegram_id notif.message with
  | ok _ => cases store docId sentWriteFields <;> rfl
  | error e => rfl

/-- Unfolding: one run step. -/
lemma consumerRunFrom_cons (sink : Sink) (store : Store) (s : ConsState) (t : Trace)
    (ev : FeedEvent) (rest : List FeedEvent) :
    consumerRunFrom sink store s t (ev :: rest) =
      consumerRunFrom sink store (consumerStep sink store s t ev).1
        (consumerStep sink store s t ev).2 rest := rfl

/-- Unfolding: the empty-snapshot step only resets the backoff. -/
lemma consumerStep_snapshot_true (sink : Sink) (store : Store) (s : ConsState)
    (t : Trace) (cs : List DocChange) :
    consumerStep sink store s t (FeedEvent.snapshot true cs) =
      ({ s with backoff := 1000 }, t) := rfl

/-- Unfolding: the non-empty-snapshot step resets the backoff and
processes the batch. -/
lemma consumerStep_snapshot_false (sink : Sink) (store : Store) (s : ConsState)
    (t : Trace) (cs : List DocChange) :
    consumerStep sink store s t (FeedEvent.snapshot false cs) =
      ({ s with backoff := 1000 },
        { t with
            sends := t.sends ++ (processBatch sink store cs).flatMap EntryOutcome.sendCalls
            writes := t.writes ++ (processBatch sink store cs).flatMap EntryOutcome.writes }) := rfl

/-- Unfolding: the error step schedules the current backoff, doubles it
capped, and restarts the listener. -/
lemma consumerStep_feedError (sink : Sink) (store : Store) (s : ConsState)
    (t : Trace) (e : FeedError) :
    consumerStep sink store s t (FeedEvent.feedError e) =
      (startFirestoreListener { s with backoff := min (s.backoff * 2) MAX_BACKOFF },
        { t with
            delays := t.delays ++ [s.backoff]
            severities := t.severities ++ [severityOf e] }) := rfl

/-- A non-`added` change triggers no sink invocation. -/
lemma processChange_sendCalls_nonAdded (sink : Sink) (store : Store) (c : DocChange)
    (h : c.type ≠ ChangeType.added) :
    (processChange sink store c).sendCalls = [] := by
  cases hc : c.type with
  | added => exact absurd hc h
  | modified => unfold processChange; rw [hc]
  | removed => unfold processChange; rw [hc]

/-- One change contributes one sink call for doc id `d` exactly when it
is an `added` change for `d`. -/
lemma processChange_send_count (sink : Sink) (store : Store) (d : String)
    (c : DocChange) :
    ((processChange sink store c).sendCalls.filter (fun sc => sc.1 == d)).length
      = if c.type == ChangeType.added && c.docId == d then 1 else 0 := by
  cases hc : c.type with
  | added =>
    unfold processChange
    rw [hc, handleAdded_sendCalls]
    cases hd : (c.docId == d) <;> simp [List.filter, hd]
  | modified => unfold processChange; rw [hc]; rfl
  | removed => unfold processChange; rw [hc]; rfl

/-- A batch contributes exactly one sink call per `added` change for `d`. -/
lemma processBatch_send_count (sink : Sink) (store : Store) (d : String) :
    ∀ cs : List DocChange,
      (((processBatch sink store cs).flatMap EntryOutcome.sendCalls).filter
          (fun sc => sc.1 == d)).length
        = (cs.filter (fun c => c.type == ChangeType.added && c.docId == d)).length := by
  intro cs
  induction cs with
  | nil => rfl
  | cons c rest ih =>
    have hc := processChange_send_count sink store d c
    simp only [processBatch, List.map_cons, List.flatMap_cons, List.filter_append,
      List.length_append, List.filter_cons]
    rw [← processBatch, ih, hc]
    cases hcd : (c.type == ChangeType.added && c.docId == d) <;> simp [hcd]
    omega

/-- `countAdded` over a cons of events. -/
lemma countAdded_cons_snapshot (b : Bool) (cs : List DocChange)
    (rest : List FeedEvent) (d : String) :
    countAdded (FeedEvent.snapshot b cs :: rest) d
      = (cs.filter (fun c => c.type == ChangeType.added && c.docId == d)).length
          + countAdded rest d := by
  simp [countAdded]

/-- `countAdded` ignores error events. -/
lemma countAdded_cons_feedError (e : FeedError) (rest : List FeedEvent) (d : String) :
    countAdded (FeedEvent.feedError e :: rest) d = countAdded rest d := by
  simp [countAdded]

/-- Across a run, the sink calls recorded for `d` grow by at most the
number of `added` changes for `d` in the events handled. -/
lemma run_countSends_le (sink : Sink) (store : Store) (d : String) :
    ∀ (evs : List FeedEvent) (s : ConsState) (t : Trace),
      countSends (consumerRunFrom sink store s t evs).2 d
        ≤ countSends t d + countAdded evs d := by
  intro evs
  induction evs with
  | nil => intro s t; simp [consumerRunFrom, countAdded]
  | cons ev rest ih =>
    intro s t
    rw [consumerRunFrom_cons]
    cases ev with
    | snapshot isEmpty cs =>
      rw [countAdded_cons_snapshot]
      cases isEmpty with
      | true =>
        rw [consumerStep_snapshot_true]
        dsimp only
        have h := ih { s with backoff := 1000 } t
        omega
      | false =>
        rw [consumerStep_snapshot_false]
        dsimp only
        have h := ih { s with backoff := 1000 }
          { t with
              sends := t.sends ++ (processBatch sink store cs).flatMap EntryOutcome.sendCalls
              writes := t.writes ++ (processBatch sink store cs).flatMap EntryOutcome.writes }
        have hc : countSends
            { t with
                sends := t.sends ++ (processBatch sink store cs).flatMap EntryOutcome.sendCalls
                writes := t.writes ++ (processBatch sink store cs).flatMap EntryOutcome.writes } d
            = countSends t d
              + (cs.filter (fun c => c.type == ChangeType.added && c.docId == d)).length := by
          simp only [countSends, List.filter_append, List.length_append]
          rw [processBatch_send_count]
        rw [hc] at h
        omega
    | feedError e =>
      rw [countAdded_cons_feedError, consumerStep_feedError]
      dsimp only
      exact ih (startFirestoreListener { s with backoff := min (s.backoff * 2) MAX_BACKOFF })
        { t with delays := t.delays ++ [s.backoff]
                 severities := t.severities ++ [severityOf e] }

/-- C3: if the sink send succeeds (and the store accepts the write), the
entry becomes status `sent` with the server-assigned timestamp sentinel,
not a client-clock time; if the sink send fails with message `m` (and the
store accepts the write), the entry becomes status `error` with
`error_message = m`. -/
theorem claim_C3 (sink : Sink) (store : Store) (docId : String) (notif : NotifDoc) :
    (sink notif.telegram_id notif.message = Except.ok () →
      store docId sentWriteFields = Except.ok () →
      (handleAdded sink store docId notif).finalDoc =
        { notif with status := "sent", sent_at := some TimeVal.serverTimestamp })
    ∧ (∀ m : String, m ≠ "" →
        sink notif.telegram_id notif.message = Except.error m →
        store docId (errorWriteFields m) = Except.ok () →
        (handleAdded sink store docId notif).finalDoc =
          { notif with status := "error", error_message := some m }) := by
  constructor
  · intro hs hw
    simp [handleAdded, hs, hw, applyFields_sent]
  · intro m hm hs hw
    simp [handleAdded, hs, coerceErrMsg_ne m hm, hw, applyFields_error]

/-- C3 witness: the spec's end-to-end example. Sink success on
`("42", "Training at 5pm")` yields `{status: "sent", sent_at: server}`;
a sink failure `blocked by user` yields
`{status: "error", error_message: "blocked by user"}`. -/
theorem claim_C3_witness :
    (handleAdded sinkOkAll storeOkAll "q1" notif42).finalDoc =
      { notif42 with status := "sent", sent_at := some TimeVal.serverTimestamp }
    ∧ (handleAdded sinkBlocked storeOkAll "q1" notif42).finalDoc =
      { notif42 with status := "error", error_message := some "blocked by user" } :=
  ⟨(claim_C3 sinkOkAll storeOkAll "q1" notif42).1 rfl rfl,
    (claim_C3 sinkBlocked storeOkAll "q1" notif42).2 "blocked by user" (by decide) rfl rfl⟩

/-- C6: entries of one batch are processed independently — the batch
result at index `i` is the per-entry procedure applied to change `i`
alone, whatever the other entries do — and in the concrete batch of 3
`added` entries where only entry 2's send fails, entries 1 and 3 reach
`sent` while entry 2 reaches `error` with the captured failure text. -/
theorem claim_C6 :
    (∀ (sink : Sink) (store : Store) (cs : List DocChange) (i : Nat),
      (processBatch sink store cs).get? i = (cs.get? i).map (processChange sink store))
    ∧ (processBatch sinkFailR2 storeOkAll batch3).map
        (fun o => (o.finalDoc.status, o.finalDoc.error_message)) =
      [("sent", none), ("error", some "blocked by user"), ("sent", none)] := by
  constructor
  · intro sink store cs i
    simp [processBatch]
  · rfl

/-- C7 counterexample: with a sink that succeeds and a store whose
`status: "sent"` write fails (message `unavailable`), the consumer does
NOT stop at logging — the `catch` performs a further `updateDoc` setting
status `error`, and the entry ends at `error`, not `pending`. -/
theorem claim_C7_cex :
    (handleAdded sinkOkAll storeFailSent "d1" doc1).writes =
      [("d1", sentWriteFields), ("d1", errorWriteFields "unavailable")]
    ∧ (handleAdded sinkOkAll storeFailSent "d1" doc1).finalDoc.status = "error" := by
  constructor <;> rfl

/-- C7 amended: when the `sent` status write fails after a successful
delivery, the failure lands in the same `catch` as a sink failure: the
consumer attempts exactly one further store write, setting status
`error` with the write failure's message; the entry stays `pending`
only if that second write also fails. -/
theorem claim_C7_amended (sink : Sink) (store : Store) (docId : String)
    (notif : NotifDoc) (m : String) (hm : m ≠ "")
    (hs : sink notif.telegram_id notif.message = Except.ok ())
    (hw : store docId sentWriteFields = Except.error m) :
    (handleAdded sink store docId notif).writes =
      [(docId, sentWriteFields), (docId, errorWriteFields m)]
    ∧ (handleAdded sink store docId notif).finalDoc =
      (match store docId (errorWriteFields m) with
        | Except.ok _ => { notif with status := "error", error_message := some m }
        | Except.error _ => notif) := by
  constructor
  · simp [handleAdded, hs, hw, coerceErrMsg_ne m hm]
  · simp only [handleAdded, hs, hw, coerceErrMsg_ne m hm]
    cases store docId (errorWriteFields m) <;> simp [applyFields_error]

/-- C7 amended, witness: the concrete failing-sent-write store. -/
theorem claim_C7_amended_witness :
    (handleAdded sinkOkAll storeFailSent "d1" doc1).writes =
      [("d1", sentWriteFields), ("d1", errorWriteFields "unavailable")]
    ∧ (handleAdded sinkOkAll storeFailSent "d1" doc1).finalDoc =
      (match storeFailSent "d1" (errorWriteFields "unavailable") with
        | Except.ok _ => { doc1 with status := "error", error_message := some "unavailable" }
        | Except.error _ => doc1) :=
  claim_C7_amended sinkOkAll storeFailSent "d1" doc1 "unavailable"
    (by decide) rfl rfl

/-- C8 counterexample: with the bot token missing (and the Firebase key
present), the main file's env check logs the FATAL line but does NOT
terminate the process; likewise the missing-credentials branch of
`bot.js`'s second variant logs FATAL and continues. -/
theorem claim_C8_cex :
    (envCheck false true).logs = ["FATAL: TELEGRAM_BOT_TOKEN is missing!"]
    ∧ (envCheck false true).exited = false
    ∧ (serviceAccountSetup false false true).logs = ["FATAL: No Google Credentials provided."]
    ∧ (serviceAccountSetup false false true).exited = false := by
  refine ⟨rfl, rfl, rfl, rfl⟩

/-- C8 amended: a missing startup credential is always logged, but only
two paths terminate the process: the missing-token check of `bot.js`'s
first variant, and a service-account key file that fails to load. The
main file's env checks and the no-credentials branch log only and the
process continues. -/
theorem claim_C8_amended :
    ∀ t k : Bool,
      (envCheck t k).exited = false
      ∧ ((envCheck t k).logs = [] ↔ t = true ∧ k = true)
      ∧ (botJsTokenCheck t).exited = !t
      ∧ (serviceAccountSetup false false true).exited = false
      ∧ (serviceAccountSetup false true false).exited = true := by
  intro t k
  cases t <;> cases k <;> refine ⟨rfl, by simp [envCheck], rfl, rfl, rfl⟩

/-- C9: on a feed error, the classification affects only the logged
severity — transient errors log a warning, others an error — while the
recovery action is identical for any two errors: the scheduled delay is
the current backoff and the resulting state (doubled capped backoff,
restarted listener) does not depend on the error at all. -/
theorem claim_C9 (sink : Sink) (store : Store) (s : ConsState) (t : Trace)
    (e e₂ : FeedError) :
    (consumerStep sink store s t (FeedEvent.feedError e)).1 =
      (consumerStep sink store s t (FeedEvent.feedError e₂)).1
    ∧ (consumerStep sink store s t (FeedEvent.feedError e)).2.delays =
      t.delays ++ [s.backoff]
    ∧ (consumerStep sink store s t (FeedEvent.feedError e)).1.backoff =
      min (s.backoff * 2) MAX_BACKOFF
    ∧ (consumerStep sink store s t (FeedEvent.feedError e)).2.severities =
      t.severities ++ [if isTransient e then Severity.warn else Severity.logError] := by
  refine ⟨rfl, rfl, rfl, ?_⟩
  simp [consumerStep, severityOf]

/-- Running over concatenated event lists runs them in sequence. -/
lemma consumerRunFrom_append (sink : Sink) (store : Store)
    (l₁ l₂ : List FeedEvent) :
    ∀ (s : ConsState) (t : Trace),
      consumerRunFrom sink store s t (l₁ ++ l₂) =
        consumerRunFrom sink store (consumerRunFrom sink store s t l₁).1
          (consumerRunFrom sink store s t l₁).2 l₂ := by
  induction l₁ with
  | nil => intro s t; rfl
  | cons ev rest ih =>
    intro s t
    rw [List.cons_append, consumerRunFrom_cons, consumerRunFrom_cons]
    exact ih _ _

/-- Doubling a capped value and re-capping equals capping the double. -/
lemma min_double_cap (a : Nat) : min (min a 60000 * 2) 60000 = min (a * 2) 60000 := by
  omega

/-- With the backoff at its value after `k` consecutive errors, a run of
`m` further consecutive error callbacks schedules exactly the delays
`min(1000·2^(k+i), 60000)` for `i < m`. -/
lemma run_errors_delays (sink : Sink) (store : Store) (e : FeedError) :
    ∀ (m k : Nat) (s : ConsState) (t : Trace),
      s.backoff = min (1000 * 2 ^ k) 60000 →
      (consumerRunFrom sink store s t (List.replicate m (FeedEvent.feedError e))).2.delays
        = t.delays ++ (List.range m).map (fun i => min (1000 * 2 ^ (k + i)) 60000) := by
  intro m
  induction m with
  | zero => intro k s t hb; simp [consumerRunFrom]
  | succ n ih =>
    intro k s t hb
    rw [List.replicate_succ, consumerRunFrom_cons, consumerStep_feedError]
    dsimp only
    have hb' : (startFirestoreListener
        { s with backoff := min (s.backoff * 2) MAX_BACKOFF }).backoff
        = min (1000 * 2 ^ (k + 1)) 60000 := by
      show min (s.backoff * 2) MAX_BACKOFF = min (1000 * 2 ^ (k + 1)) 60000
      rw [hb, MAX_BACKOFF]
      have h2 : 1000 * 2 ^ k * 2 = 1000 * 2 ^ (k + 1) := by ring
      omega
    rw [ih (k + 1) _ _ hb', hb, List.append_assoc]
    congr 1
    rw [List.range_succ_eq_map, List.map_cons, List.map_map,
      List.singleton_append]
    congr 1
    apply List.map_congr_left
    intro i _
    simp only [Function.comp_apply]
    have h3 : k + 1 + i = k + Nat.succ i := by omega
    rw [h3]

/-- C2: starting fresh, the delay scheduled before the Nth reconnection
attempt after N consecutive feed errors with no intervening snapshot is
`min(1000·2^(N-1), 60000)` (index `n = N-1` below), and in particular
errors 1..7 schedule 1000, 2000, 4000, 8000, 16000, 32000, 60000 ms. -/
theorem claim_C2 (sink : Sink) (store : Store) (e : FeedError) :
    (∀ N n : Nat, n < N →
      ((consumerRun sink store (List.replicate N (FeedEvent.feedError e))).2.delays)[n]?
        = some (min (1000 * 2 ^ n) 60000))
    ∧ (consumerRun sink store (List.replicate 7 (FeedEvent.feedError e))).2.delays
      = [1000, 2000, 4000, 8000, 16000, 32000, 60000] := by
  have hrun : ∀ N, (consumerRun sink store (List.replicate N (FeedEvent.feedError e))).2.delays
      = (List.range N).map (fun i => min (1000 * 2 ^ i) 60000) := by
    intro N
    have h := run_errors_delays sink store e N 0 initState emptyTrace (by decide)
    simpa [consumerRun, emptyTrace, Nat.zero_add] using h
  constructor
  · intro N n hn
    rw [hrun N, List.getElem?_map _ _ n, List.getElem?_range hn]
    rfl
  · rw [hrun 7]
    rfl

/-- C2 witness: the 7th consecutive error (index 6) is scheduled after
`min(1000·2^6, 60000) = 60000` ms. -/
theorem claim_C2_witness :
    ((consumerRun sinkOkAll storeOkAll
        (List.replicate 7 (FeedEvent.feedError errIdle))).2.delays)[6]?
      = some (min (1000 * 2 ^ 6) 60000) :=
  (claim_C2 sinkOkAll storeOkAll errIdle).1 7 6 (by decide)

/-- C4: whatever happened before, a successful snapshot callback — even
an empty one — resets the backoff, so the delay scheduled for the next
feed error is the 1000 ms floor. -/
theorem claim_C4 (sink : Sink) (store : Store) (es : List FeedEvent)
    (isEmpty : Bool) (cs : List DocChange) (e : FeedError) :
    ((consumerRun sink store
        (es ++ [FeedEvent.snapshot isEmpty cs, FeedEvent.feedError e])).2.delays).getLast?
      = some 1000 := by
  rw [consumerRun, consumerRunFrom_append]
  cases isEmpty with
  | true =>
    rw [consumerRunFrom_cons, consumerStep_snapshot_true]
    dsimp only
    rw [consumerRunFrom_cons, consumerStep_feedError]
    dsimp only
    rw [consumerRunFrom]
    exact List.getLast?_concat _
  | false =>
    rw [consumerRunFrom_cons, consumerStep_snapshot_false]
    dsimp only
    rw [consumerRunFrom_cons, consumerStep_feedError]
    dsimp only
    rw [consumerRunFrom]
    exact List.getLast?_concat _

/-- C1: `modified`/`removed` changes (including the echo of the
consumer's own status write) never invoke the sink, and an entry
observed as `added` exactly once has the sink invoked at most once
across the consumer's lifetime. -/
theorem claim_C1 :
    (∀ (sink : Sink) (store : Store) (c : DocChange),
      c.type ≠ ChangeType.added → (processChange sink store c).sendCalls = [])
    ∧ (∀ (sink : Sink) (store : Store) (events : List FeedEvent) (d : String),
        countAdded events d = 1 →
        countSends (consumerRun sink store events).2 d ≤ 1) := by
  constructor
  · exact processChange_sendCalls_nonAdded
  · intro sink store events d h
    have hle := run_countSends_le sink store d events initState emptyTrace
    have h0 : countSends emptyTrace d = 0 := rfl
    rw [consumerRun] at *
    omega

/-- C1 witness: the lifetime with one `added` observation of `d1`
followed by the `modified` echo gives at most one sink call, and the
echo change alone gives none. -/
theorem claim_C1_witness :
    (processChange sinkOkAll storeOkAll changeModified).sendCalls = []
    ∧ countSends (consumerRun sinkOkAll storeOkAll eventsOneAdd).2 "d1" ≤ 1 :=
  ⟨claim_C1.1 sinkOkAll storeOkAll changeModified (by decide),
    claim_C1.2 sinkOkAll storeOkAll eventsOneAdd "d1" (by decide)⟩

/-- Restarting preserves the session invariant: the old handle (if any)
is released before the fresh one is opened, so the fresh handle is the
only active one. -/
lemma startFirestoreListener_inv (s : ConsState) (h : sessionInv s) :
    sessionInv (startFirestoreListener s) := by
  unfold sessionInv at h ⊢
  cases hc : s.current with
  | none =>
    rw [hc] at h
    simp only [Option.toList] at h
    simp [startFirestoreListener, hc, h]
  | some hdl =>
    rw [hc] at h
    simp only [Option.toList] at h
    simp [startFirestoreListener, hc, h, List.erase_cons_head]

/-- Every restart opens its fresh subscription on `notifQuery`. -/
lemma startFirestoreListener_opened (s : ConsState) :
    (startFirestoreListener s).opened
      = s.opened ++ [{ id := s.nextId, q := notifQuery }] := rfl

/-- The session invariant and the opened-on-`notifQuery` property are
preserved by any run. -/
lemma run_inv (sink : Sink) (store : Store) :
    ∀ (evs : List FeedEvent) (s : ConsState) (t : Trace),
      sessionInv s → (∀ hd ∈ s.opened, hd.q = notifQuery) →
      sessionInv (consumerRunFrom sink store s t evs).1
        ∧ ∀ hd ∈ (consumerRunFrom sink store s t evs).1.opened, hd.q = notifQuery := by
  intro evs
  induction evs with
  | nil => intro s t h1 h2; exact ⟨h1, h2⟩
  | cons ev rest ih =>
    intro s t h1 h2
    rw [consumerRunFrom_cons]
    cases ev with
    | snapshot isEmpty cs =>
      cases isEmpty with
      | true =>
        rw [consumerStep_snapshot_true]
        dsimp only
        exact ih _ _ h1 h2
      | false =>
        rw [consumerStep_snapshot_false]
        dsimp only
        exact ih _ _ h1 h2
    | feedError e =>
      rw [consumerStep_feedError]
      dsimp only
      apply ih
      · exact startFirestoreListener_inv _ h1
      · intro hd hmem
        rw [startFirestoreListener_opened] at hmem
        rcases List.mem_append.mp hmem with hm | hm
        · exact h2 _ hm
        · simp only [List.mem_singleton] at hm
          rw [hm]

/-- C5: across any lifetime, at most one feed handle is active at a
time, and every subscription ever opened is on the live view filtered
by `status == "pending"`. The restart operation releases the previous
handle (a release of an already-closed handle being a no-op) before the
fresh subscription is opened. -/
theorem claim_C5 (sink : Sink) (store : Store) (events : List FeedEvent) :
    (consumerRun sink store events).1.active.length ≤ 1
    ∧ (consumerRun sink store events).1.opened.all
        (fun hd => hd.q == notifQuery) = true := by
  have h := run_inv sink store events initState emptyTrace rfl
    (by intro hd hm
        simp only [initState, startFirestoreListener, preStartState,
          List.nil_append, List.mem_singleton] at hm
        rw [hm])
  obtain ⟨h1, h2⟩ := h
  rw [consumerRun]
  constructor
  · rw [sessionInv] at h1
    rw [h1]
    cases (consumerRunFrom sink store initState emptyTrace events).1.current <;> simp
  · rw [List.all_eq_true]
    intro x hx
    rw [beq_iff_eq]
    exact h2 x hx

/-- Every write the delivery procedure attempts carries one of the two
status payloads. -/
lemma handleAdded_writes_shape (sink : Sink) (store : Store) (docId : String)
    (notif : NotifDoc) :
    ∀ w ∈ (handleAdded sink store docId notif).writes, writeShape w.2 := by
  unfold handleAdded
  cases sink notif.telegram_id notif.message with
  | ok u =>
    cases store docId sentWriteFields with
    | ok u2 =>
      intro w hw
      simp only [List.mem_singleton] at hw
      rw [hw]
      exact Or.inl rfl
    | error e =>
      intro w hw
      simp only [List.mem_cons, List.mem_singleton, List.not_mem_nil, or_false] at hw
      rcases hw with h | h <;> rw [h]
      · exact Or.inl rfl
      · exact Or.inr ⟨_, rfl⟩
  | error e =>
    intro w hw
    simp only [List.mem_singleton] at hw
    rw [hw]
    exact Or.inr ⟨_, rfl⟩

/-- Every write a change triggers carries one of the two payloads. -/
lemma processChange_writes_shape (sink : Sink) (store : Store) (c : DocChange) :
    ∀ w ∈ (processChange sink store c).writes, writeShape w.2 := by
  cases hc : c.type with
  | added =>
    unfold processChange
    rw [hc]
    exact handleAdded_writes_shape sink store c.docId c.data
  | modified =>
    unfold processChange
    rw [hc]
    intro w hw
    exact absurd hw (List.not_mem_nil w)
  | removed =>
    unfold processChange
    rw [hc]
    intro w hw
    exact absurd hw (List.not_mem_nil w)

/-- Every write a batch triggers carries one of the two payloads. -/
lemma processBatch_writes_shape (sink : Sink) (store : Store) (cs : List DocChange) :
    ∀ w ∈ (processBatch sink store cs).flatMap EntryOutcome.writes, writeShape w.2 := by
  intro w hw
  rw [List.mem_flatMap] at hw
  obtain ⟨o, ho, hwo⟩ := hw
  rw [processBatch, List.mem_map] at ho
  obtain ⟨c, _, hc⟩ := ho
  rw [← hc] at hwo
  exact processChange_writes_shape sink store c w hwo

/-- Across a run, every recorded write carries one of the two payloads. -/
lemma run_writes_shape (sink : Sink) (store : Store) :
    ∀ (evs : List FeedEvent) (s : ConsState) (t : Trace),
      (∀ w ∈ t.writes, writeShape w.2) →
      ∀ w ∈ (consumerRunFrom sink store s t evs).2.writes, writeShape w.2 := by
  intro evs
  induction evs with
  | nil => intro s t h; exact h
  | cons ev rest ih =>
    intro s t h
    rw [consumerRunFrom_cons]
    cases ev with
    | snapshot isEmpty cs =>
      cases isEmpty with
      | true =>
        rw [consumerStep_snapshot_true]
        dsimp only
        exact ih _ _ h
      | false =>
        rw [consumerStep_snapshot_false]
        dsimp only
        apply ih
        intro w hw
        rcases List.mem_append.mp hw with hm | hm
        · exact h w hm
        · exact processBatch_writes_shape sink store cs w hm
    | feedError e =>
      rw [consumerStep_feedError]
      dsimp only
      exact ih _ _ h

/-- Both status payloads leave the recipient identifier and the message
body untouched. -/
lemma writeShape_frame (fs : Fields) (h : writeShape fs) :
    ∀ dd : NotifDoc, (applyFields dd fs).telegram_id = dd.telegram_id
      ∧ (applyFields dd fs).message = dd.message := by
  intro dd
  rcases h with h | ⟨m, h⟩ <;> subst h <;> exact ⟨rfl, rfl⟩

/-- C10: every store write the consumer performs over its lifetime is
either `{status: "sent", sent_at}` or `{status: "error", error_message}`,
and applying either payload never modifies the recipient identifier or
the message body. -/
theorem claim_C10 (sink : Sink) (store : Store) (events : List FeedEvent) :
    ∀ w ∈ (consumerRun sink store events).2.writes,
      writeShape w.2
      ∧ ∀ dd : NotifDoc, (applyFields dd w.2).telegram_id = dd.telegram_id
          ∧ (applyFields dd w.2).message = dd.message := by
  intro w hw
  have hs : writeShape w.2 := by
    refine run_writes_shape sink store events initState emptyTrace ?_ w hw
    intro w2 hw2
    exact absurd hw2 (List.not_mem_nil w2)
  exact ⟨hs, writeShape_frame _ hs⟩

/-- C10 witness: the lifetime with one delivered entry records the
success write, which has the sent payload and preserves the recipient
and body fields of any document. -/
theorem claim_C10_witness :
    (("d1", sentWriteFields) ∈
        (consumerRun sinkOkAll storeOkAll eventsOneAdd).2.writes)
    ∧ (writeShape ("d1", sentWriteFields).2
        ∧ ∀ dd : NotifDoc,
            (applyFields dd ("d1", sentWriteFields).2).telegram_id = dd.telegram_id
            ∧ (applyFields dd ("d1", sentWriteFields).2).message = dd.message) :=
  ⟨by decide,
    claim_C10 sinkOkAll storeOkAll eventsOneAdd ("d1", sentWriteFields) (by decide)⟩

end TgCoachBot
